import Mathlib

/-!
Verification of the Data Safe Haven configuration subsystem.

Shallow embedding of:
  - src/data_safe_haven/utility/type_checked.py  (the TypeChecked descriptor)
  - src/data_safe_haven/config/config.py         (config sections and the Config document)

Machine integers do not occur in this subsystem; SRE indices are Python ints,
modelled as Int.  Python dicts are modelled as insertion-ordered association
lists over String keys.  Fallible operations return Except.
-/

set_option autoImplicit false

deriving instance DecidableEq for Except

namespace DataSafeHaven

/-! ## TypeChecked descriptor (src/data_safe_haven/utility/type_checked.py)

A `TypeChecked[T]` descriptor holds an attribute name (filled in by
`__set_name__`) and an optional default.  The value stored in the owning
instance dictionary may be: a value of the wrapped type, a `TypeChecked`
instance (stored as-is by `__set__`), or a value of some other type; or the
slot may be empty (never set).  `check_type` raises a
`DataSafeHavenParameterError` naming the field for anything that is not an
instance of the wrapped type. -/

/-- A raw value as found in the owning instance dictionary:
either a value of the wrapped type `alpha` (the isinstance check passes),
a `TypeChecked` descriptor object stored as-is by `__set__`,
or a value of some other type (the isinstance check fails). -/
inductive RawValue (alpha : Type) where
  | typed (a : alpha)
  | descriptorInstance
  | illTyped
deriving DecidableEq, Repr

/-- The `TypeChecked` descriptor object: attribute name plus optional default. -/
structure TypeChecked (alpha : Type) where
  name : String := ""
  default : Option alpha := Option.none
deriving DecidableEq, Repr

/-- Result of `TypeChecked.__get__`: either a value of the wrapped type, or the
descriptor object itself (the distinguishable unset sentinel). -/
inductive GetResult (alpha : Type) where
  | value (a : alpha)
  | sentinel
deriving DecidableEq, Repr

/-- `TypeChecked.check_type`: returns the value when it is an instance of the
wrapped type, otherwise raises `DataSafeHavenParameterError` (modelled as
`Except.error` carrying the field name, which the message includes). -/
def TypeChecked.check_type {alpha : Type} (d : TypeChecked alpha) :
    RawValue alpha → Except String alpha
  | RawValue.typed a => Except.ok a
  | RawValue.descriptorInstance => Except.error d.name
  | RawValue.illTyped => Except.error d.name

/-- The body of the `try` block of `TypeChecked.__get__`:
`instance.__dict__[self.name]` (raising `KeyError` when the slot is empty,
modelled as the stored value being `Option.none`) followed by `check_type`. -/
def TypeChecked.getRaw {alpha : Type} (d : TypeChecked alpha)
    (stored : Option (RawValue alpha)) : Except String alpha :=
  match stored with
  | Option.none => Except.error "KeyError"
  | Option.some raw => d.check_type raw

/-- The `except` branch of `TypeChecked.__get__`: the configured default when
one exists, otherwise the descriptor itself. -/
def TypeChecked.fallback {alpha : Type} (d : TypeChecked alpha) : GetResult alpha :=
  match d.default with
  | Option.some v => GetResult.value v
  | Option.none => GetResult.sentinel

/-- `TypeChecked.__get__`: the `try`/`except` of the source.  Every exception
the `try` block can produce (`AttributeError`, `DataSafeHavenParameterError`,
`KeyError`) is caught, so the result type has no error case: a read never
raises. -/
def TypeChecked.get {alpha : Type} (d : TypeChecked alpha)
    (stored : Option (RawValue alpha)) : GetResult alpha :=
  match d.getRaw stored with
  | Except.ok a => GetResult.value a
  | Except.error _ => d.fallback

/-- `TypeChecked.__set__`: a `TypeChecked` instance is stored as-is without
re-validation; any other value is stored only after `check_type` passes,
and the parameter error propagates when it fails. -/
def TypeChecked.set {alpha : Type} (d : TypeChecked alpha) (v : RawValue alpha) :
    Except String (RawValue alpha) :=
  match v with
  | RawValue.descriptorInstance => Except.ok RawValue.descriptorInstance
  | RawValue.typed a => (d.check_type (RawValue.typed a)).map RawValue.typed
  | RawValue.illTyped => (d.check_type RawValue.illTyped).map (fun _ => RawValue.illTyped)

end DataSafeHaven

namespace DataSafeHaven

/-! ## Leaf shape validators

`config.py` imports `validate_aad_guid`, `validate_azure_location`,
`validate_azure_vm_sku`, `validate_email_address`, `validate_ip_address` and
`validate_timezone` from `data_safe_haven.functions`; that module is not part
of the sources under study, so the validators are modelled from the spec.
Only their pass/fail behaviour on concrete values matters here. -/

/-- A character allowed at position `i` of a GUID: a hyphen at positions
8, 13, 18 and 23, a hexadecimal digit elsewhere. -/
def guidCharOk (i : Nat) (c : Char) : Bool :=
  if i = 8 ∨ i = 13 ∨ i = 18 ∨ i = 23 then c == '-'
  else c.isDigit || ("abcdefABCDEF".toList.contains c)

/-- Modelled from the spec: `validate_aad_guid` (from `data_safe_haven.functions`,
not present under the sources) accepts a directory GUID in 8-4-4-4-12
hexadecimal form. -/
def validate_aad_guid (s : String) : Bool :=
  (s.length == 36) && s.toList.enum.all (fun p => guidCharOk p.1 p.2)

/-- Modelled from the spec: `validate_azure_location` accepts a non-empty
lowercase alphanumeric region code. -/
def validate_azure_location (s : String) : Bool :=
  (s != "") && s.toList.all (fun c => c.isLower || c.isDigit)

/-- `pat` is an initial segment of `l`. -/
def listStartsWith : List Char → List Char → Bool
  | [], _ => true
  | _ :: _, [] => false
  | p :: ps, c :: cs => (p.val = c.val : Bool) && listStartsWith ps cs

/-- Modelled from the spec: `validate_azure_vm_sku` accepts a VM SKU name of
the platform family, such as Standard_D2s_v4. -/
def validate_azure_vm_sku (s : String) : Bool :=
  listStartsWith "Standard_".data s.data

/-- Split a character list at every occurrence of `sep` (the splitting that
`str.split(sep)` performs, on code points). -/
def splitOnChar (sep : Char) : List Char → List (List Char)
  | [] => [[]]
  | c :: r =>
    if c.val = sep.val then [] :: splitOnChar sep r
    else
      match splitOnChar sep r with
      | [] => [[c]]
      | h :: t => (c :: h) :: t

/-- A non-empty all-digit character list read as a decimal number. -/
def charsToNat (l : List Char) : Option Nat :=
  if l ≠ [] ∧ l.all (fun c => c.isDigit) then
    Option.some (l.foldl (fun n c => n * 10 + (c.toNat - 48)) 0)
  else Option.none

/-- Modelled from the spec: `validate_email_address` accepts a string of the
shape local@domain with a dotted non-empty domain. -/
def validate_email_address (s : String) : Bool :=
  match splitOnChar '@' s.data with
  | [loc, dom] =>
    (loc ≠ [] : Bool) && ((splitOnChar '.' dom).length ≥ 2 : Bool)
      && (splitOnChar '.' dom).all (fun p => (p ≠ [] : Bool))
  | _ => false

/-- A decimal octet between 0 and 255. -/
def octetOk (l : List Char) : Bool :=
  match charsToNat l with
  | Option.some n => n ≤ 255
  | Option.none => false

/-- A dotted quad of octets. -/
def quadOk (l : List Char) : Bool :=
  match splitOnChar '.' l with
  | [a, b, c, d] => octetOk a && octetOk b && octetOk c && octetOk d
  | _ => false

/-- Modelled from the spec: `validate_ip_address` accepts a dotted-quad IPv4
address with an optional /0../32 network size. -/
def validate_ip_address (s : String) : Bool :=
  match splitOnChar '/' s.data with
  | [ip] => quadOk ip
  | [ip, mask] =>
    quadOk ip
    && (match charsToNat mask with
        | Option.some n => n ≤ 32
        | Option.none => false)
  | _ => false

/-- Modelled from the spec: `validate_timezone` checks membership of the
recognized timezone set (a representative sample of the IANA names). -/
def validate_timezone (s : String) : Bool :=
  ["UTC", "Europe/London", "Europe/Paris", "America/New_York",
   "Australia/Sydney"].contains s

/-! ## Config sections (src/data_safe_haven/config/config.py)

Each `TypeChecked[str]` or `TypeChecked[bool]` dataclass field is modelled as
an `Option` of the wrapped type: `Option.none` is the never-set slot, whose
read through the descriptor yields the field default when one exists and the
descriptor sentinel otherwise.  The only such fields with defaults are
`ConfigSectionPulumi.encryption_key_name` / `storage_container_name` and
`ConfigSectionSRE.index` (default 0, so its reads are modelled directly as an
`Int`).  Validation errors carry the field name and the str() rendering of
the offending value, as the `Invalid value for X (value)` messages do. -/

/-- A `ValueError` raised by section validation: field name plus the rendered
offending value. -/
structure ValueError where
  fieldName : String
  value : String
deriving DecidableEq, Repr

/-- Python `str()` of a descriptor-mediated field read: the stored string when
the field is set, the repr of the `TypeChecked` descriptor object (never a
valid GUID, email, IP or timezone) when it is unset with no default. -/
def strOfField (fieldName : String) : Option String → String
  | Option.some s => s
  | Option.none => "<TypeChecked object " ++ fieldName ++ ">"

/-- Python truthiness of a descriptor-mediated field read: an unset field
reads as the descriptor object, which has no `__bool__`/`__len__` and is
therefore truthy; a set field is truthy exactly when the string is
non-empty. -/
def pyTruthyField : Option String → Bool
  | Option.none => true
  | Option.some s => s != ""

/-- `ConfigSectionAzure` (config.py): four `TypeChecked[str]` fields, no
defaults. -/
structure ConfigSectionAzure where
  admin_group_id : Option String := Option.none
  location : Option String := Option.none
  subscription_id : Option String := Option.none
  tenant_id : Option String := Option.none
deriving DecidableEq, Repr

/-- `ConfigSectionAzure.validate`: each field in source order through its
shape validator, wrapping failures in a `ValueError` naming field and
value. -/
def ConfigSectionAzure.validate (a : ConfigSectionAzure) : Except ValueError Unit :=
  if ¬ validate_aad_guid (strOfField "admin_group_id" a.admin_group_id) then
    Except.error ⟨"admin_group_id", strOfField "admin_group_id" a.admin_group_id⟩
  else if ¬ validate_azure_location (strOfField "location" a.location) then
    Except.error ⟨"location", strOfField "location" a.location⟩
  else if ¬ validate_aad_guid (strOfField "subscription_id" a.subscription_id) then
    Except.error ⟨"subscription_id", strOfField "subscription_id" a.subscription_id⟩
  else if ¬ validate_aad_guid (strOfField "tenant_id" a.tenant_id) then
    Except.error ⟨"tenant_id", strOfField "tenant_id" a.tenant_id⟩
  else Except.ok ()

/-- The shared shape of every section `to_dict`: run the section validation
and raise its error, otherwise return the encoded mapping.  The chili
encoders are the identity on every field, so the encoded mapping is modelled
by the section value itself. -/
def validatedDict {S : Type} (validate : S → Except ValueError Unit) (s : S) :
    Except ValueError S :=
  match validate s with
  | Except.ok _ => Except.ok s
  | Except.error e => Except.error e

/-- `ConfigSectionAzure.to_dict`: validate, then identity-encode. -/
def ConfigSectionAzure.to_dict (a : ConfigSectionAzure) :
    Except ValueError ConfigSectionAzure :=
  validatedDict ConfigSectionAzure.validate a

/-- `ConfigSectionBackend` (config.py): five `TypeChecked[str]` fields, no
defaults. -/
structure ConfigSectionBackend where
  key_vault_name : Option String := Option.none
  managed_identity_name : Option String := Option.none
  resource_group_name : Option String := Option.none
  storage_account_name : Option String := Option.none
  storage_container_name : Option String := Option.none
deriving DecidableEq, Repr

/-- `ConfigSectionBackend.validate`: truthiness checks `if not self.field` in
source order.  An unset field reads as the descriptor object, which is
truthy, so only fields set to the empty string fail. -/
def ConfigSectionBackend.validate (b : ConfigSectionBackend) : Except ValueError Unit :=
  if ¬ pyTruthyField b.key_vault_name then
    Except.error ⟨"key_vault_name", strOfField "key_vault_name" b.key_vault_name⟩
  else if ¬ pyTruthyField b.managed_identity_name then
    Except.error ⟨"managed_identity_name",
      strOfField "managed_identity_name" b.managed_identity_name⟩
  else if ¬ pyTruthyField b.resource_group_name then
    Except.error ⟨"resource_group_name",
      strOfField "resource_group_name" b.resource_group_name⟩
  else if ¬ pyTruthyField b.storage_account_name then
    Except.error ⟨"storage_account_name",
      strOfField "storage_account_name" b.storage_account_name⟩
  else if ¬ pyTruthyField b.storage_container_name then
    Except.error ⟨"storage_container_name",
      strOfField "storage_container_name" b.storage_container_name⟩
  else Except.ok ()

/-- `ConfigSectionBackend.to_dict`: validate, then identity-encode. -/
def ConfigSectionBackend.to_dict (b : ConfigSectionBackend) :
    Except ValueError ConfigSectionBackend :=
  validatedDict ConfigSectionBackend.validate b

/-- `ConfigSectionPulumi` (config.py): `encryption_key_id` has no default;
`encryption_key_name` defaults to pulumi-encryption-key and
`storage_container_name` to pulumi; `stacks` is a plain dict of stack name to
base64 stack file (named `stacks` in the source; `stacks` is a reserved
token here, hence the trailing underscore). -/
structure ConfigSectionPulumi where
  encryption_key_id : Option String := Option.none
  encryption_key_name : Option String := Option.none
  stacks_ : List (String × String) := []
  storage_container_name : Option String := Option.none
deriving DecidableEq, Repr

/-- The descriptor-mediated read of `encryption_key_name` (default
pulumi-encryption-key). -/
def ConfigSectionPulumi.read_encryption_key_name (p : ConfigSectionPulumi) : String :=
  p.encryption_key_name.getD "pulumi-encryption-key"

/-- The descriptor-mediated read of `storage_container_name` (default
pulumi). -/
def ConfigSectionPulumi.read_storage_container_name (p : ConfigSectionPulumi) : String :=
  p.storage_container_name.getD "pulumi"

/-- `ConfigSectionPulumi.validate`: only `encryption_key_id` is checked, with
`not isinstance(.., str) or not ..`: an unset field reads as the descriptor
(not a str) and fails; a set field fails exactly when empty. -/
def ConfigSectionPulumi.validate (p : ConfigSectionPulumi) : Except ValueError Unit :=
  match p.encryption_key_id with
  | Option.none =>
    Except.error ⟨"encryption_key_id", strOfField "encryption_key_id" Option.none⟩
  | Option.some s =>
    if s = "" then Except.error ⟨"encryption_key_id", s⟩ else Except.ok ()

/-- `ConfigSectionPulumi.to_dict`: validate, then identity-encode. -/
def ConfigSectionPulumi.to_dict (p : ConfigSectionPulumi) :
    Except ValueError ConfigSectionPulumi :=
  validatedDict ConfigSectionPulumi.validate p

/-- `ConfigSectionSHM` (config.py): identity and network settings of the
shared management environment. -/
structure ConfigSectionSHM where
  aad_tenant_id : Option String := Option.none
  admin_email_address : Option String := Option.none
  admin_ip_addresses : List String := []
  fqdn : Option String := Option.none
  name : Option String := Option.none
  timezone : Option String := Option.none
deriving DecidableEq, Repr

/-- First admin IP of `l` failing `validate_ip_address`, when any (the source
loops and wraps the first failure). -/
def firstBadIp (l : List String) : Option String :=
  l.find? (fun ip => ¬ validate_ip_address ip)

/-- `ConfigSectionSHM.validate`: GUID, email, IP list, isinstance-str plus
non-empty `fqdn` and `name`, and timezone, in source order. -/
def ConfigSectionSHM.validate (s : ConfigSectionSHM) : Except ValueError Unit :=
  if ¬ validate_aad_guid (strOfField "aad_tenant_id" s.aad_tenant_id) then
    Except.error ⟨"aad_tenant_id", strOfField "aad_tenant_id" s.aad_tenant_id⟩
  else if ¬ validate_email_address
      (strOfField "admin_email_address" s.admin_email_address) then
    Except.error ⟨"admin_email_address",
      strOfField "admin_email_address" s.admin_email_address⟩
  else
    match firstBadIp s.admin_ip_addresses with
    | Option.some ip => Except.error ⟨"admin_ip_addresses", ip⟩
    | Option.none =>
      match s.fqdn with
      | Option.none => Except.error ⟨"fqdn", strOfField "fqdn" Option.none⟩
      | Option.some f =>
        if f = "" then Except.error ⟨"fqdn", f⟩
        else
          match s.name with
          | Option.none => Except.error ⟨"name", strOfField "name" Option.none⟩
          | Option.some n =>
            if n = "" then Except.error ⟨"name", n⟩
            else if ¬ validate_timezone (strOfField "timezone" s.timezone) then
              Except.error ⟨"timezone", strOfField "timezone" s.timezone⟩
            else Except.ok ()

/-- `ConfigSectionSHM.to_dict`: validate, then identity-encode. -/
def ConfigSectionSHM.to_dict (s : ConfigSectionSHM) :
    Except ValueError ConfigSectionSHM :=
  validatedDict ConfigSectionSHM.validate s

/-- `ConfigSubsectionRemoteDesktopOpts` (config.py): two `TypeChecked[bool]`
fields with no defaults. -/
structure ConfigSubsectionRemoteDesktopOpts where
  allow_copy : Option Bool := Option.none
  allow_paste : Option Bool := Option.none
deriving DecidableEq, Repr

/-- `ConfigSubsectionRemoteDesktopOpts.validate`: isinstance-bool checks; the
unset read is the descriptor, which is not a bool. -/
def ConfigSubsectionRemoteDesktopOpts.validate
    (r : ConfigSubsectionRemoteDesktopOpts) : Except ValueError Unit :=
  match r.allow_copy with
  | Option.none => Except.error ⟨"allow_copy", "<TypeChecked object allow_copy>"⟩
  | Option.some _ =>
    match r.allow_paste with
    | Option.none => Except.error ⟨"allow_paste", "<TypeChecked object allow_paste>"⟩
    | Option.some _ => Except.ok ()

/-- `ConfigSubsectionResearchDesktopOpts` (config.py): one plain string field
`sku`, default the empty string. -/
structure ConfigSubsectionResearchDesktopOpts where
  sku : String := ""
deriving DecidableEq, Repr

/-- `ConfigSubsectionResearchDesktopOpts.validate`: SKU shape. -/
def ConfigSubsectionResearchDesktopOpts.validate
    (r : ConfigSubsectionResearchDesktopOpts) : Except ValueError Unit :=
  if ¬ validate_azure_vm_sku r.sku then Except.error ⟨"sku", r.sku⟩
  else Except.ok ()

/-- Modelled from the spec: `SoftwarePackageCategory` (from
`data_safe_haven.utility.enums`, not present under the sources) is the enum of
installable software-package sources. -/
inductive SoftwarePackageCategory where
  | any
  | preApproved
  | nothing
deriving DecidableEq, Repr

/-- `ConfigSectionSRE` (config.py).  `index` is `TypeChecked[int]` with
default 0, so its descriptor-mediated reads are modelled directly by an `Int`
that starts at 0; `research_desktops` is an insertion-ordered dict. -/
structure ConfigSectionSRE where
  data_provider_ip_addresses : List String := []
  index : Int := 0
  remote_desktop : ConfigSubsectionRemoteDesktopOpts := {}
  research_desktops : List (String × ConfigSubsectionResearchDesktopOpts) := []
  research_user_ip_addresses : List String := []
  software_packages : SoftwarePackageCategory := SoftwarePackageCategory.nothing
deriving DecidableEq, Repr

/-- Lexicographic comparison of code-point lists, the order Python uses on
strings. -/
def strListLe : List Char → List Char → Bool
  | [], _ => true
  | _ :: _, [] => false
  | a :: as, b :: bs =>
    if a.val < b.val then true
    else if b.val < a.val then false
    else strListLe as bs

/-- Python string comparison `a <= b`: lexicographic by code point. -/
def pyLe (a b : String) : Bool := strListLe a.data b.data

/-- Stable ascending insertion of `a` into an already sorted list. -/
def pyInsert (a : String) : List String → List String
  | [] => [a]
  | b :: r => if pyLe a b then a :: b :: r else b :: pyInsert a r

/-- Python `sorted` on a list of strings: the ascending reordering (modelled
by insertion sort, which produces the same canonical result). -/
def pySorted : List String → List String
  | [] => []
  | a :: r => pyInsert a (pySorted r)

/-- The zero-padded two-digit rendering of `idx` in `f"workspace-{idx:02d}"`. -/
def pad2 (n : Nat) : String :=
  if n < 10 then "0" ++ toString n else toString n

/-- The key `workspace-NN` assigned to position `n`. -/
def workspaceKey (n : Nat) : String :=
  "workspace-" ++ pad2 n

/-- The rebuilt workspace dict: `workspace-00, workspace-01, ...` in the order
of the given SKU list. -/
def buildResearchDesktops (skus : List String) :
    List (String × ConfigSubsectionResearchDesktopOpts) :=
  skus.enum.map (fun p => (workspaceKey p.1, ⟨p.2⟩))

/-- `ConfigSectionSRE.set_research_desktops`: the guard of the source compares
`sorted(research_desktops)` with `sorted(self.research_desktops.keys())` -
the requested SKU list against the existing keys - and on inequality clears
the dict and rebuilds it with `workspace-NN` keys in list order. -/
def ConfigSectionSRE.set_research_desktops (s : ConfigSectionSRE)
    (research_desktops : List String) : ConfigSectionSRE :=
  if pySorted research_desktops ≠ pySorted (s.research_desktops.map Prod.fst) then
    { s with research_desktops := buildResearchDesktops research_desktops }
  else s

/-- `ConfigSectionSRE.validate`: provider IPs, remote-desktop flags, each
research desktop, user IPs, in source order.  The `index` field is not
validated. -/
def ConfigSectionSRE.validate (s : ConfigSectionSRE) : Except ValueError Unit :=
  match firstBadIp s.data_provider_ip_addresses with
  | Option.some ip => Except.error ⟨"data_provider_ip_addresses", ip⟩
  | Option.none => do
    s.remote_desktop.validate
    match (s.research_desktops.map Prod.snd).find?
        (fun r => ¬ validate_azure_vm_sku r.sku) with
    | Option.some r => Except.error ⟨"sku", r.sku⟩
    | Option.none =>
      match firstBadIp s.research_user_ip_addresses with
      | Option.some ip => Except.error ⟨"research_user_ip_addresses", ip⟩
      | Option.none => Except.ok ()

/-- `ConfigSectionSRE.to_dict`: validate, then identity-encode. -/
def ConfigSectionSRE.to_dict (s : ConfigSectionSRE) :
    Except ValueError ConfigSectionSRE :=
  validatedDict ConfigSectionSRE.validate s

/-- Modelled from the spec: the repository version string `__version__`
(package metadata, not present under the sources), used as the default of
`ConfigSectionTags.version`. -/
def versionString : String := "4.0.0"

/-- `ConfigSectionTags` (config.py): plain string fields with defaults. -/
structure ConfigSectionTags where
  deployment : String := ""
  deployed_by : String := "Python"
  project : String := "Data Safe Haven"
  version : String := versionString
deriving DecidableEq, Repr

/-- `ConfigSectionTags.validate`: `deployment` must be truthy (non-empty). -/
def ConfigSectionTags.validate (t : ConfigSectionTags) : Except ValueError Unit :=
  if t.deployment = "" then Except.error ⟨"deployment", t.deployment⟩
  else Except.ok ()

/-- `ConfigSectionTags.to_dict`: validate, then identity-encode. -/
def ConfigSectionTags.to_dict (t : ConfigSectionTags) :
    Except ValueError ConfigSectionTags :=
  validatedDict ConfigSectionTags.validate t

/-! ## The Config document (src/data_safe_haven/config/config.py)

Python dicts are insertion-ordered with unique keys; they are modelled as
association lists in which a new key is appended at the end. -/

/-- Dict lookup `d[k]` / `k in d.keys()`. -/
def lookupKey {V : Type} : List (String × V) → String → Option V
  | [], _ => Option.none
  | p :: r, k => if p.1 = k then Option.some p.2 else lookupKey r k

/-- Dict deletion `del d[k]` (keys are unique, so removing every binding of
`k` agrees with removing the one binding). -/
def removeKey {V : Type} : List (String × V) → String → List (String × V)
  | [], _ => []
  | p :: r, k => if p.1 = k then removeKey r k else p :: removeKey r k

/-- Modelled from the spec: `BackendSettings` (from
`config/backend_settings.py`, not present under the sources) supplies the
deployment name and the context coordinates read in `Config.__init__`. -/
structure BackendSettings where
  name : String
  location : String
  admin_group_id : String
  subscription_name : String
deriving DecidableEq, Repr

/-- The `Config` document state: the five optional section attributes
`azure_` .. `tags_`, the SRE mapping, and the deployment name used by the
lazily-materializing properties.  The derived blob names and the Azure API
handle are not part of the document state. -/
structure Config where
  azure_ : Option ConfigSectionAzure := Option.none
  backend_ : Option ConfigSectionBackend := Option.none
  pulumi_ : Option ConfigSectionPulumi := Option.none
  shm_ : Option ConfigSectionSHM := Option.none
  tags_ : Option ConfigSectionTags := Option.none
  sres : List (String × ConfigSectionSRE) := []
  name : String := ""
deriving DecidableEq, Repr

/-- The value returned by the `pulumi` property: the stored section, or a
fresh `ConfigSectionPulumi()` when absent. -/
def Config.pulumi (c : Config) : ConfigSectionPulumi :=
  c.pulumi_.getD {}

/-- The value returned by the `tags` property: the stored section, or a fresh
`ConfigSectionTags(deployment=self.name)` when absent. -/
def Config.tags (c : Config) : ConfigSectionTags :=
  c.tags_.getD { deployment := c.name }

/-- `Config.remove_sre`: delete the named SRE section when present; removing
an unknown name is a no-op. -/
def Config.remove_sre (c : Config) (n : String) : Config :=
  if (lookupKey c.sres n).isSome then { c with sres := removeKey c.sres n }
  else c

/-- `Config.remove_stack`: `if name in self.pulumi.stacks.keys(): del ...`.
The `pulumi` property access materializes the section (with its defaults)
whether or not the name is present. -/
def Config.remove_stack (c : Config) (n : String) : Config :=
  if (lookupKey c.pulumi.stacks_ n).isSome then
    { c with pulumi_ :=
        Option.some { c.pulumi with stacks_ := removeKey c.pulumi.stacks_ n } }
  else { c with pulumi_ := Option.some c.pulumi }

/-- `max([0] + [int(sre.index) for sre in self.sres.values()])`. -/
def maxSreIndex (l : List (String × ConfigSectionSRE)) : Int :=
  (l.map (fun p => p.2.index)).foldl max 0

/-- The indices of the currently present SREs. -/
def sreIndices (c : Config) : List Int :=
  c.sres.map (fun p => p.2.index)

/-- `Config.sre`: return the config entry for this SRE, creating it when it
does not exist.  A fresh name is materialized through the
`defaultdict(ConfigSectionSRE)` - a default section appended at the end of
the dict - and its `index` is set to the highest current index plus one. -/
def Config.sre (c : Config) (n : String) : Config × ConfigSectionSRE :=
  match lookupKey c.sres n with
  | Option.some s => (c, s)
  | Option.none =>
    let s : ConfigSectionSRE := { index := maxSreIndex c.sres + 1 }
    ({ c with sres := c.sres ++ [(n, s)] }, s)

/-- The decoded top-level YAML mapping: one optional value per recognized
section key, plus the `sre` sub-mapping.  The `tags` key can occur in the
text (`__str__` always writes it) and is therefore represented, but
`__init__` never reads it.  The chili decoders are the identity on every
field, so each section value stands for its own YAML fragment. -/
structure YamlInput where
  azure : Option ConfigSectionAzure := Option.none
  backend : Option ConfigSectionBackend := Option.none
  pulumi : Option ConfigSectionPulumi := Option.none
  shm : Option ConfigSectionSHM := Option.none
  sre : List (String × ConfigSectionSRE) := []
  tags : Option ConfigSectionTags := Option.none
deriving DecidableEq, Repr

/-- The outcome of `yaml.safe_load(self.azure_api.download_blob(...))`:
the blob is missing (`DataSafeHavenAzureError`), the text is found but fails
to parse (`yaml.parser.ParserError`), or a mapping is obtained. -/
inductive DownloadOutcome where
  | notFound
  | parseFailure
  | ok (y : YamlInput)
deriving DecidableEq, Repr

/-- The document state after the backend-settings block of `Config.__init__`
and before the download: every section attribute is `None` except `azure_`,
which the two property writes `self.azure.location = ...` and
`self.azure.admin_group_id = ...` have already materialized. -/
def configBase (settings : BackendSettings) : Config :=
  { name := settings.name,
    azure_ := Option.some
      { location := Option.some settings.location,
        admin_group_id := Option.some settings.admin_group_id } }

/-- The section-decoding block of `Config.__init__`: each recognized key
replaces the corresponding attribute when present; the `tags` key is never
read; the `sre` sub-mapping is decoded entry by entry in order. -/
def decodeInto (base : Config) (y : YamlInput) : Config :=
  { base with
    azure_ := match y.azure with
      | Option.some a => Option.some a
      | Option.none => base.azure_,
    backend_ := match y.backend with
      | Option.some b => Option.some b
      | Option.none => base.backend_,
    pulumi_ := match y.pulumi with
      | Option.some p => Option.some p
      | Option.none => base.pulumi_,
    shm_ := match y.shm with
      | Option.some s => Option.some s
      | Option.none => base.shm_,
    sres := y.sre }

/-- `Config.__init__`: read backend settings, attempt the download inside
`suppress(DataSafeHavenAzureError, ParserError)` - so both the missing-blob
error and the YAML parse error leave `yaml_input` empty - then decode the
sections that are present. -/
def configInit (settings : BackendSettings) (outcome : DownloadOutcome) : Config :=
  match outcome with
  | DownloadOutcome.notFound => configBase settings
  | DownloadOutcome.parseFailure => configBase settings
  | DownloadOutcome.ok y => decodeInto (configBase settings) y

/-- `{k: v.to_dict() for k, v in self.sres.items()}`: serialize each SRE
section, propagating the first validation error. -/
def sresToDict : List (String × ConfigSectionSRE) →
    Except ValueError (List (String × ConfigSectionSRE))
  | [] => Except.ok []
  | p :: r =>
    match p.2.to_dict with
    | Except.error e => Except.error e
    | Except.ok d =>
      match sresToDict r with
      | Except.error e => Except.error e
      | Except.ok rest => Except.ok ((p.1, d) :: rest)

/-- Serialization of one optional section: an absent section contributes no
key; a present section contributes its `to_dict`, whose validation error
aborts. -/
def optDict {S : Type} (toD : S → Except ValueError S) :
    Option S → Except ValueError (Option S)
  | Option.none => Except.ok Option.none
  | Option.some a =>
    match toD a with
    | Except.ok d => Except.ok (Option.some d)
    | Except.error e => Except.error e

/-- `Config.__str__`: assemble the `contents` mapping.  A section key is
written only when the section attribute is set - except `tags`, where the
guard `if self.tags:` goes through the always-truthy property and therefore
always writes the (materialized) tags section.  Each `to_dict` validates
first, so a validation error anywhere aborts the serialization. -/
def Config.toContents (c : Config) : Except ValueError YamlInput :=
  match optDict ConfigSectionAzure.to_dict c.azure_ with
  | Except.error e => Except.error e
  | Except.ok az =>
    match optDict ConfigSectionBackend.to_dict c.backend_ with
    | Except.error e => Except.error e
    | Except.ok bk =>
      match optDict ConfigSectionPulumi.to_dict c.pulumi_ with
      | Except.error e => Except.error e
      | Except.ok pl =>
        match optDict ConfigSectionSHM.to_dict c.shm_ with
        | Except.error e => Except.error e
        | Except.ok sh =>
          match sresToDict c.sres with
          | Except.error e => Except.error e
          | Except.ok sr =>
            match (c.tags).to_dict with
            | Except.error e => Except.error e
            | Except.ok tg =>
              Except.ok { azure := az, backend := bk, pulumi := pl, shm := sh,
                          sre := sr, tags := Option.some tg }

/-- The YAML round-trip at document level: serialize with `__str__` (the
text of which `yaml.safe_load` parses back to the same mapping) and decode
with `Config.__init__` under the same backend settings. -/
def roundTrip (settings : BackendSettings) (c : Config) : Except ValueError Config :=
  (c.toContents).map (fun y => configInit settings (DownloadOutcome.ok y))

/-! ## Concrete fixtures used by witnesses and counterexamples -/

/-- The replacement guard as the spec words it, for comparison with the
source guard: the requested SKU set differs from the set of SKUs currently
stored in the section, compared ignoring order. -/
def skuSetDiffersSpec (skus : List String) (s : ConfigSectionSRE) : Bool :=
  pySorted skus ≠ pySorted (s.research_desktops.map (fun p => p.2.sku))

/-- An SRE section holding two workspaces with SKUs Standard_D2s_v4 and
Standard_D8s_v4 under the canonical keys. -/
def sreTwoWorkspaces : ConfigSectionSRE :=
  { research_desktops :=
      [("workspace-00", ⟨"Standard_D2s_v4"⟩), ("workspace-01", ⟨"Standard_D8s_v4"⟩)] }

/-- A document with no SRE sections, as produced for a never-configured
deployment. -/
def emptyShmConfig : Config :=
  { name := "shm" }

/-- Concrete backend settings for a deployment named shm. -/
def sampleSettings : BackendSettings :=
  { name := "shm", location := "uksouth",
    admin_group_id := "00000000-0000-0000-0000-000000000000",
    subscription_name := "sub" }

/-- A document in which every section is present, every field is set, and
every section passes its validation. -/
def fullConfig : Config :=
  { name := "shm",
    azure_ := Option.some
      { admin_group_id := Option.some "00000000-0000-0000-0000-000000000000",
        location := Option.some "uksouth",
        subscription_id := Option.some "00000000-0000-0000-0000-000000000001",
        tenant_id := Option.some "00000000-0000-0000-0000-000000000002" },
    backend_ := Option.some
      { key_vault_name := Option.some "shm-shm-kv-backend",
        managed_identity_name := Option.some "shm-shm-identity-reader-backend",
        resource_group_name := Option.some "shm-shm-rg-backend",
        storage_account_name := Option.some "shmshmbackend",
        storage_container_name := Option.some "config" },
    pulumi_ := Option.some
      { encryption_key_id := Option.some "https://example.net/keys/k1",
        encryption_key_name := Option.some "pulumi-encryption-key",
        stacks_ := [("shm", "c3RhY2s=")],
        storage_container_name := Option.some "pulumi" },
    shm_ := Option.some
      { aad_tenant_id := Option.some "00000000-0000-0000-0000-000000000003",
        admin_email_address := Option.some "admin@example.com",
        admin_ip_addresses := ["1.2.3.4"],
        fqdn := Option.some "shm.example.com",
        name := Option.some "shm",
        timezone := Option.some "UTC" },
    tags_ := Option.some { deployment := "shm" },
    sres := [("sre1",
      { data_provider_ip_addresses := ["2.3.4.5"],
        index := 1,
        remote_desktop :=
          { allow_copy := Option.some false, allow_paste := Option.some false },
        research_desktops := [("workspace-00", { sku := "Standard_D2s_v4" })],
        research_user_ip_addresses := ["3.4.5.6/32"],
        software_packages := SoftwarePackageCategory.any })] }

/-- The serialized contents of `fullConfig`: every present section under its
key, every SRE entry, and the tags section (always written). -/
def fullContents : YamlInput :=
  { azure := fullConfig.azure_,
    backend := fullConfig.backend_,
    pulumi := fullConfig.pulumi_,
    shm := fullConfig.shm_,
    sre := fullConfig.sres,
    tags := Option.some { deployment := "shm" } }

end DataSafeHaven

namespace DataSafeHaven

/-- Claim C8: a `TypeChecked` read returns the stored value when a value of the
expected type is present; when the field was never set it returns the default
supplied at field definition time when one was configured, and otherwise the
distinguishable unset sentinel (the descriptor itself); a read of an unset
field never raises (the result type of `get` has no error case, every
exception of the `try` body being caught). -/
theorem typeChecked_get_ok (alpha : Type) (nm : String) (a dv : alpha) :
    ((⟨nm, Option.none⟩ : TypeChecked alpha).get
        (Option.some (RawValue.typed a)) = GetResult.value a)
    ∧ ((⟨nm, Option.some dv⟩ : TypeChecked alpha).get
        (Option.some (RawValue.typed a)) = GetResult.value a)
    ∧ ((⟨nm, Option.some dv⟩ : TypeChecked alpha).get Option.none = GetResult.value dv)
    ∧ ((⟨nm, Option.none⟩ : TypeChecked alpha).get Option.none = GetResult.sentinel) := by
  refine ⟨rfl, rfl, rfl, rfl⟩

/-- Claim C10: a read whose stored raw value fails the expected-type check
(including a stored `TypeChecked` instance, which `__set__` stores as-is and
which is not an instance of the wrapped type) never surfaces the parameter
error that `check_type` produces: the error is caught and the configured
default, or the sentinel when no default exists, is returned instead. -/
theorem typeChecked_get_masks (alpha : Type) (nm : String) (dv : alpha) :
    ((⟨nm, Option.none⟩ : TypeChecked alpha).check_type RawValue.descriptorInstance
        = Except.error nm)
    ∧ ((⟨nm, Option.none⟩ : TypeChecked alpha).check_type RawValue.illTyped
        = Except.error nm)
    ∧ ((⟨nm, Option.none⟩ : TypeChecked alpha).set RawValue.descriptorInstance
        = Except.ok RawValue.descriptorInstance)
    ∧ ((⟨nm, Option.some dv⟩ : TypeChecked alpha).get
        (Option.some RawValue.descriptorInstance) = GetResult.value dv)
    ∧ ((⟨nm, Option.none⟩ : TypeChecked alpha).get
        (Option.some RawValue.descriptorInstance) = GetResult.sentinel)
    ∧ ((⟨nm, Option.some dv⟩ : TypeChecked alpha).get
        (Option.some RawValue.illTyped) = GetResult.value dv)
    ∧ ((⟨nm, Option.none⟩ : TypeChecked alpha).get
        (Option.some RawValue.illTyped) = GetResult.sentinel) := by
  refine ⟨rfl, rfl, rfl, rfl, rfl, rfl, rfl⟩

end DataSafeHaven

namespace DataSafeHaven

/-- Claim C6: calling `set_research_desktops` twice with the same SKU list
leaves the `research_desktops` mapping in a state identical to the state
after the first call - the same keys mapped to the same values.  (When the
second call finds the guard true again it rebuilds the same dict
deterministically; otherwise it leaves the state alone.) -/
theorem set_research_desktops_idem (s : ConfigSectionSRE) (skus : List String) :
    (s.set_research_desktops skus).set_research_desktops skus
      = s.set_research_desktops skus := by
  by_cases h1 : pySorted skus ≠ pySorted (s.research_desktops.map Prod.fst)
  · have e1 : s.set_research_desktops skus
        = { s with research_desktops := buildResearchDesktops skus } := by
      unfold ConfigSectionSRE.set_research_desktops
      rw [if_pos h1]
    rw [e1]
    unfold ConfigSectionSRE.set_research_desktops
    split
    · rfl
    · rfl
  · have e1 : s.set_research_desktops skus = s := by
      unfold ConfigSectionSRE.set_research_desktops
      rw [if_neg h1]
    rw [e1]
    exact e1

/-- Claim C5 (code bug): the source guard compares the requested SKU list
with the existing keys `workspace-NN`, not with the stored SKUs.  Calling
with the same SKU set in reverse order - for which the claim requires the
stored collection to be left untouched - rebuilds the dict and reassigns the
SKUs to different keys. -/
theorem set_research_desktops_compares_keys :
    (skuSetDiffersSpec ["Standard_D8s_v4", "Standard_D2s_v4"] sreTwoWorkspaces = false)
    ∧ ((sreTwoWorkspaces.set_research_desktops
          ["Standard_D8s_v4", "Standard_D2s_v4"]).research_desktops
        = [("workspace-00", ⟨"Standard_D8s_v4"⟩),
           ("workspace-01", ⟨"Standard_D2s_v4"⟩)])
    ∧ sreTwoWorkspaces.set_research_desktops ["Standard_D8s_v4", "Standard_D2s_v4"]
        ≠ sreTwoWorkspaces := by
  refine ⟨by decide, by decide, by decide⟩

/-- Claim C2 counterexample: in one document lifetime the SRE b is assigned
index 2, b is removed, and the next fresh name c is assigned index 2 again -
the index of a removed SRE is reused without any explicit reset. -/
theorem sre_index_reuse_after_remove :
    ((((emptyShmConfig.sre "a").1.sre "b").1.sre "b").2.index = 2)
    ∧ ((((((emptyShmConfig.sre "a").1.sre "b").1.remove_sre "b").sre "c").2.index = 2)) := by
  refine ⟨by decide, by decide⟩

end DataSafeHaven

namespace DataSafeHaven

/-- Claim C9: on a document whose pulumi section is absent, `remove_stack`
materializes the pulumi section with its default values through the `pulumi`
property access in its guard - so it is not a pure no-op - while it changes
no other attribute, never raises (it is total), and removes no stack entry
(the materialized default `stacks` dict is empty). -/
theorem remove_stack_materializes_pulumi (c : Config) (n : String)
    (h : c.pulumi_ = Option.none) :
    (c.remove_stack n).pulumi_ = Option.some {}
    ∧ (c.remove_stack n).pulumi_ ≠ c.pulumi_
    ∧ (c.remove_stack n).azure_ = c.azure_
    ∧ (c.remove_stack n).backend_ = c.backend_
    ∧ (c.remove_stack n).shm_ = c.shm_
    ∧ (c.remove_stack n).tags_ = c.tags_
    ∧ (c.remove_stack n).sres = c.sres
    ∧ (c.remove_stack n).name = c.name
    ∧ (c.remove_stack n).pulumi.stacks_ = [] := by
  have hp : c.pulumi = ({} : ConfigSectionPulumi) := by
    unfold Config.pulumi
    rw [h]
    rfl
  have e : c.remove_stack n = { c with pulumi_ := Option.some {} } := by
    unfold Config.remove_stack
    rw [hp]
    rfl
  refine ⟨by rw [e], ?_, by rw [e], by rw [e], by rw [e], by rw [e], by rw [e],
    by rw [e], by rw [e]; rfl⟩
  rw [e, h]
  simp

/-- Witness for C9: removing an arbitrary stack name from the empty document
materializes its pulumi section with defaults. -/
theorem remove_stack_materializes_pulumi_witness :
    (emptyShmConfig.remove_stack "shm").pulumi_ = Option.some {}
    ∧ (emptyShmConfig.remove_stack "shm").pulumi_ ≠ emptyShmConfig.pulumi_ :=
  ⟨(remove_stack_materializes_pulumi emptyShmConfig "shm" rfl).1,
   (remove_stack_materializes_pulumi emptyShmConfig "shm" rfl).2.1⟩

/-- Claim C4 (amended): `Config.__init__` runs the download and the YAML
parse inside `suppress(DataSafeHavenAzureError, ParserError)`, so a
found-but-unparsable blob is treated exactly like a missing blob: both yield,
without raising, the same document in which backend, pulumi, shm and tags
are absent and no SRE is present - while the azure section is already
materialized by the backend-settings writes and is therefore never absent. -/
theorem configInit_conflates_parse_failure (settings : BackendSettings) :
    configInit settings DownloadOutcome.parseFailure
      = configInit settings DownloadOutcome.notFound
    ∧ (configInit settings DownloadOutcome.notFound).backend_ = Option.none
    ∧ (configInit settings DownloadOutcome.notFound).pulumi_ = Option.none
    ∧ (configInit settings DownloadOutcome.notFound).shm_ = Option.none
    ∧ (configInit settings DownloadOutcome.notFound).tags_ = Option.none
    ∧ (configInit settings DownloadOutcome.notFound).sres = []
    ∧ (configInit settings DownloadOutcome.notFound).azure_
        = Option.some { location := Option.some settings.location,
                        admin_group_id := Option.some settings.admin_group_id } :=
  ⟨rfl, rfl, rfl, rfl, rfl, rfl, rfl⟩

/-- Claim C4 counterexample: at concrete settings, the parse-failure outcome
produces a document equal to the not-found outcome - no distinct error is
surfaced for a found-but-malformed blob - and the resulting document does not
have all sections absent, its azure section being materialized. -/
theorem parse_failure_not_distinguished :
    configInit sampleSettings DownloadOutcome.parseFailure
      = configInit sampleSettings DownloadOutcome.notFound
    ∧ (configInit sampleSettings DownloadOutcome.notFound).azure_ ≠ Option.none := by
  refine ⟨rfl, by decide⟩

end DataSafeHaven

namespace DataSafeHaven

/-- The seed never exceeds a running foldl of max. -/
theorem foldl_max_init_le (l : List Int) (i : Int) : i ≤ l.foldl max i := by
  induction l generalizing i with
  | nil => exact le_refl i
  | cons a t ih =>
    simp only [List.foldl_cons]
    exact le_trans (le_max_left i a) (ih (max i a))

/-- Every member is bounded by a foldl of max. -/
theorem foldl_max_mem_le (l : List Int) (i x : Int) : x ∈ l → x ≤ l.foldl max i := by
  induction l generalizing i with
  | nil => intro hx; cases hx
  | cons a t ih =>
    intro hx
    simp only [List.foldl_cons]
    cases hx with
    | head => exact le_trans (le_max_right i x) (foldl_max_init_le t (max i x))
    | tail _ h => exact ih (max i a) h

/-- A foldl of max is the seed or is attained by a member. -/
theorem foldl_max_mem_or (l : List Int) (i : Int) :
    l.foldl max i = i ∨ l.foldl max i ∈ l := by
  induction l generalizing i with
  | nil => exact Or.inl rfl
  | cons a t ih =>
    simp only [List.foldl_cons]
    rcases ih (max i a) with h | h
    · rcases max_choice i a with hm | hm
      · exact Or.inl (h.trans hm)
      · exact Or.inr (by rw [h, hm]; exact List.mem_cons_self a t)
    · exact Or.inr (List.mem_cons_of_mem a h)

/-- Appending a fresh key makes it found, bound to the appended value. -/
theorem lookupKey_append_fresh {V : Type} (l : List (String × V)) (k : String) (v : V)
    (h : lookupKey l k = Option.none) :
    lookupKey (l ++ [(k, v)]) k = Option.some v := by
  induction l with
  | nil => simp [lookupKey]
  | cons p t ih =>
    simp only [List.cons_append]
    unfold lookupKey at h ⊢
    by_cases hp : p.1 = k
    · rw [if_pos hp] at h; cases h
    · rw [if_neg hp] at h ⊢
      exact ih h

/-- Appending a binding for a different key leaves a lookup unchanged. -/
theorem lookupKey_append_other {V : Type} (l : List (String × V)) (k1 k2 : String)
    (v : V) (hne : k1 ≠ k2) :
    lookupKey (l ++ [(k1, v)]) k2 = lookupKey l k2 := by
  induction l with
  | nil => simp [lookupKey, hne]
  | cons p t ih =>
    simp only [List.cons_append]
    unfold lookupKey
    by_cases hp : p.1 = k2
    · rw [if_pos hp, if_pos hp]
    · rw [if_neg hp, if_neg hp]
      exact ih

/-- `Config.sre` on a fresh name: the resulting document and section,
spelled out. -/
theorem sre_fresh_eq (c : Config) (n : String)
    (h : lookupKey c.sres n = Option.none) :
    c.sre n
      = ({ c with sres := c.sres ++ [(n, { index := maxSreIndex c.sres + 1 })] },
         ({ index := maxSreIndex c.sres + 1 } : ConfigSectionSRE)) := by
  unfold Config.sre
  rw [h]

/-- `Config.sre` on a present name returns the stored section and leaves the
document unchanged. -/
theorem sre_found_eq (c : Config) (n : String) (s : ConfigSectionSRE)
    (h : lookupKey c.sres n = Option.some s) : c.sre n = (c, s) := by
  unfold Config.sre
  rw [h]

/-- Claim C1: for a name not yet present, `sre(name)` creates the section
with index `max([0] + existing indices) + 1` - which equals
`max(existing indices) + 1` and is attained by an existing index whenever
some SRE exists and the indices satisfy the documented nonnegativity
invariant - and strictly exceeds every existing index; a second call with
the same name returns the same document and the same section (idempotent
get-or-create); and a subsequent call with a second fresh name assigns a
strictly larger, hence non-colliding, index. -/
theorem sre_get_or_create (c : Config) (n1 n2 : String)
    (h1 : lookupKey c.sres n1 = Option.none)
    (h2 : lookupKey c.sres n2 = Option.none)
    (hne : n1 ≠ n2) :
    (c.sre n1).2.index = maxSreIndex c.sres + 1
    ∧ lookupKey (c.sre n1).1.sres n1 = Option.some (c.sre n1).2
    ∧ (∀ i ∈ sreIndices c, i < (c.sre n1).2.index)
    ∧ (c.sres ≠ [] → (∀ i ∈ sreIndices c, 0 ≤ i) →
        ∃ i ∈ sreIndices c, (c.sre n1).2.index = i + 1)
    ∧ (c.sre n1).1.sre n1 = ((c.sre n1).1, (c.sre n1).2)
    ∧ (c.sre n1).2.index < ((c.sre n1).1.sre n2).2.index := by
  have e1 := sre_fresh_eq c n1 h1
  have idx1 : (c.sre n1).2.index = maxSreIndex c.sres + 1 := by rw [e1]
  have s1 : (c.sre n1).1.sres
      = c.sres ++ [(n1, { index := maxSreIndex c.sres + 1 })] := by rw [e1]
  have p2 : (c.sre n1).2 = ({ index := maxSreIndex c.sres + 1 } : ConfigSectionSRE) := by
    rw [e1]
  have lk : lookupKey (c.sre n1).1.sres n1
      = Option.some ({ index := maxSreIndex c.sres + 1 } : ConfigSectionSRE) := by
    rw [s1]
    exact lookupKey_append_fresh c.sres n1 _ h1
  refine ⟨idx1, by rw [lk, p2], ?_, ?_, ?_, ?_⟩
  · intro i hi
    rw [idx1]
    exact Int.lt_add_one_iff.mpr (foldl_max_mem_le (sreIndices c) 0 i hi)
  · intro hnil hpos
    rcases foldl_max_mem_or (sreIndices c) 0 with h0 | hmem
    · obtain ⟨j, hj⟩ : ∃ x, x ∈ sreIndices c := by
        cases hcs : c.sres with
        | nil => exact absurd hcs hnil
        | cons p t =>
          refine ⟨p.2.index, ?_⟩
          simp only [sreIndices, hcs, List.map_cons]
          exact List.mem_cons_self _ _
      have hM0 : maxSreIndex c.sres = 0 := h0
      have hj0 : j = 0 := by
        have hle : j ≤ 0 := by
          have := foldl_max_mem_le (sreIndices c) 0 j hj
          rwa [h0] at this
        exact le_antisymm hle (hpos j hj)
      exact ⟨j, hj, by rw [idx1, hM0, hj0]⟩
    · exact ⟨maxSreIndex c.sres, hmem, idx1⟩
  · exact sre_found_eq (c.sre n1).1 n1 (c.sre n1).2 (by rw [lk, p2])
  · have h2' : lookupKey (c.sre n1).1.sres n2 = Option.none := by
      rw [s1, lookupKey_append_other c.sres n1 n2 _ hne]
      exact h2
    have e2 := sre_fresh_eq (c.sre n1).1 n2 h2'
    have idx2 : ((c.sre n1).1.sre n2).2.index = maxSreIndex (c.sre n1).1.sres + 1 := by
      rw [e2]
    have hM1 : maxSreIndex (c.sre n1).1.sres = maxSreIndex c.sres + 1 := by
      rw [s1]
      unfold maxSreIndex
      rw [List.map_append, List.foldl_append]
      simp only [List.map_cons, List.map_nil, List.foldl_cons, List.foldl_nil]
      show max ((c.sres.map (fun p => p.2.index)).foldl max 0)
          (maxSreIndex c.sres + 1) = maxSreIndex c.sres + 1
      exact max_eq_right (by exact le_of_lt (lt_add_one _))
    rw [idx1, idx2, hM1]
    exact lt_add_one _

/-- Witness for C1: on the empty document, the fresh name a receives index
`maxSreIndex + 1` and a subsequent fresh name b receives a strictly larger
index. -/
theorem sre_get_or_create_witness :
    (emptyShmConfig.sre "a").2.index = maxSreIndex emptyShmConfig.sres + 1
    ∧ (emptyShmConfig.sre "a").2.index < ((emptyShmConfig.sre "a").1.sre "b").2.index :=
  ⟨(sre_get_or_create emptyShmConfig "a" "b" rfl rfl (by decide)).1,
   (sre_get_or_create emptyShmConfig "a" "b" rfl rfl (by decide)).2.2.2.2.2⟩

/-- Claim C2 (amended): within a document lifetime `sre(name)` guarantees
only that a freshly assigned index strictly exceeds the indices of the
currently present SREs: the next index is computed as
`max([0] + present indices) + 1` over the post-removal document alone, so an
index freed by `remove_sre` - as in the reuse counterexample - can be
assigned again. -/
theorem sre_index_after_remove (c : Config) (a n : String)
    (h : lookupKey (c.remove_sre a).sres n = Option.none) :
    ((c.remove_sre a).sre n).2.index = maxSreIndex (c.remove_sre a).sres + 1
    ∧ ∀ i ∈ sreIndices (c.remove_sre a), i < ((c.remove_sre a).sre n).2.index := by
  have e := sre_fresh_eq (c.remove_sre a) n h
  have idx : ((c.remove_sre a).sre n).2.index
      = maxSreIndex (c.remove_sre a).sres + 1 := by rw [e]
  refine ⟨idx, ?_⟩
  intro i hi
  rw [idx]
  exact Int.lt_add_one_iff.mpr (foldl_max_mem_le (sreIndices (c.remove_sre a)) 0 i hi)

/-- Witness for C2: after removing b, the fresh name c receives the index
computed from the remaining SREs alone. -/
theorem sre_index_after_remove_witness :
    ((((emptyShmConfig.sre "a").1.sre "b").1.remove_sre "b").sre "c").2.index
      = maxSreIndex (((emptyShmConfig.sre "a").1.sre "b").1.remove_sre "b").sres + 1 :=
  (sre_index_after_remove ((emptyShmConfig.sre "a").1.sre "b").1 "b" "c" (by decide)).1

end DataSafeHaven

namespace DataSafeHaven

/-- A `validatedDict` that returns a mapping returns the section unchanged. -/
theorem validatedDict_ok {S : Type} (v : S → Except ValueError Unit) (s d : S)
    (h : validatedDict v s = Except.ok d) : d = s := by
  unfold validatedDict at h
  split at h
  · injection h with h'
    exact h'.symm
  · cases h

/-- A `validatedDict` returns its section exactly when the validation
passes. -/
theorem validatedDict_ok_iff {S : Type} (v : S → Except ValueError Unit) (s : S) :
    validatedDict v s = Except.ok s ↔ v s = Except.ok () := by
  unfold validatedDict
  constructor
  · intro h
    split at h
    · rename_i u hu
      cases u
      exact hu
    · cases h
  · intro h
    rw [h]

/-- A `validatedDict` raises exactly the validation error. -/
theorem validatedDict_error_iff {S : Type} (v : S → Except ValueError Unit) (s : S)
    (e : ValueError) :
    validatedDict v s = Except.error e ↔ v s = Except.error e := by
  unfold validatedDict
  constructor
  · intro h
    split at h
    · cases h
    · rename_i e2 he
      injection h with h'
      rw [← h']
      exact he
  · intro h
    rw [h]

/-- A successful `optDict` returns the optional section unchanged. -/
theorem optDict_ok {S : Type} (toD : S → Except ValueError S)
    (hid : ∀ a d, toD a = Except.ok d → d = a) (o r : Option S)
    (h : optDict toD o = Except.ok r) : r = o := by
  cases o with
  | none =>
    unfold optDict at h
    injection h with h'
    exact h'.symm
  | some a =>
    have h2 : (match toD a with
        | Except.ok d => Except.ok (Option.some d)
        | Except.error e => Except.error e) = Except.ok r := h
    cases hd : toD a with
    | ok d =>
      rw [hd] at h2
      injection h2 with h'
      rw [← h', hid a d hd]
    | error e =>
      rw [hd] at h2
      exact Except.noConfusion h2

/-- A successful `sresToDict` returns the SRE mapping unchanged. -/
theorem sresToDict_ok (l l' : List (String × ConfigSectionSRE))
    (h : sresToDict l = Except.ok l') : l' = l := by
  induction l generalizing l' with
  | nil =>
    unfold sresToDict at h
    injection h with h'
    exact h'.symm
  | cons p t ih =>
    unfold sresToDict at h
    split at h
    · cases h
    · rename_i d hd
      split at h
      · cases h
      · rename_i rest hrest
        injection h with h'
        rw [← h', validatedDict_ok ConfigSectionSRE.validate p.2 d hd, ih rest hrest]

/-- A successful serialization reproduces each stored section under its key,
the full SRE mapping, and writes a tags key. -/
theorem toContents_fields (c : Config) (y : YamlInput)
    (h : c.toContents = Except.ok y) :
    y.azure = c.azure_ ∧ y.backend = c.backend_ ∧ y.pulumi = c.pulumi_
    ∧ y.shm = c.shm_ ∧ y.sre = c.sres := by
  unfold Config.toContents at h
  split at h
  · cases h
  · rename_i az haz
    split at h
    · cases h
    · rename_i bk hbk
      split at h
      · cases h
      · rename_i pl hpl
        split at h
        · cases h
        · rename_i sh hsh
          split at h
          · cases h
          · rename_i sr hsr
            split at h
            · cases h
            · rename_i tg htg
              injection h with h'
              subst h'
              exact ⟨optDict_ok _ (fun a d hd => validatedDict_ok _ a d hd) _ _ haz,
                optDict_ok _ (fun a d hd => validatedDict_ok _ a d hd) _ _ hbk,
                optDict_ok _ (fun a d hd => validatedDict_ok _ a d hd) _ _ hpl,
                optDict_ok _ (fun a d hd => validatedDict_ok _ a d hd) _ _ hsh,
                sresToDict_ok _ _ hsr⟩

end DataSafeHaven

namespace DataSafeHaven

/-- Claim C3 (amended): decoding the serialized document under the same
backend settings reconstructs the backend, pulumi, shm and sre sections
exactly - present sections come back equal, absent ones stay absent - and
reconstructs a stored azure section exactly, an absent azure section becoming
the settings-materialized one that every constructed document carries; the
tags section, however, is always written by `__str__` (materialized through
the `tags` property if unset) but never decoded by `__init__`, so the
reconstructed document always has `tags_` unset. -/
theorem roundTrip_preserves_sections (settings : BackendSettings) (c : Config)
    (y : YamlInput) (h : c.toContents = Except.ok y) :
    (configInit settings (DownloadOutcome.ok y)).backend_ = c.backend_
    ∧ (configInit settings (DownloadOutcome.ok y)).pulumi_ = c.pulumi_
    ∧ (configInit settings (DownloadOutcome.ok y)).shm_ = c.shm_
    ∧ (configInit settings (DownloadOutcome.ok y)).sres = c.sres
    ∧ (configInit settings (DownloadOutcome.ok y)).tags_ = Option.none
    ∧ (∀ a, c.azure_ = Option.some a →
        (configInit settings (DownloadOutcome.ok y)).azure_ = Option.some a)
    ∧ (c.azure_ = Option.none →
        (configInit settings (DownloadOutcome.ok y)).azure_
          = (configBase settings).azure_) := by
  obtain ⟨ha, hb, hp, hs, hr⟩ := toContents_fields c y h
  refine ⟨?_, ?_, ?_, ?_, rfl, ?_, ?_⟩
  · show (match y.backend with
      | Option.some b => Option.some b
      | Option.none => (configBase settings).backend_) = c.backend_
    rw [hb]
    cases c.backend_ <;> rfl
  · show (match y.pulumi with
      | Option.some p => Option.some p
      | Option.none => (configBase settings).pulumi_) = c.pulumi_
    rw [hp]
    cases c.pulumi_ <;> rfl
  · show (match y.shm with
      | Option.some s => Option.some s
      | Option.none => (configBase settings).shm_) = c.shm_
    rw [hs]
    cases c.shm_ <;> rfl
  · exact hr
  · intro a haz
    show (match y.azure with
      | Option.some x => Option.some x
      | Option.none => (configBase settings).azure_) = Option.some a
    rw [ha, haz]
  · intro h0
    show (match y.azure with
      | Option.some x => Option.some x
      | Option.none => (configBase settings).azure_) = (configBase settings).azure_
    rw [ha, h0]

/-- Witness for C3: the fully-set valid document serializes to
`fullContents`, whose decode reproduces the backend section and leaves the
tags section unset. -/
theorem roundTrip_preserves_sections_witness :
    (configInit sampleSettings (DownloadOutcome.ok fullContents)).backend_
      = fullConfig.backend_
    ∧ (configInit sampleSettings (DownloadOutcome.ok fullContents)).tags_
      = Option.none :=
  ⟨(roundTrip_preserves_sections sampleSettings fullConfig fullContents (by decide)).1,
   (roundTrip_preserves_sections sampleSettings fullConfig fullContents
      (by decide)).2.2.2.2.1⟩

/-- Claim C3 counterexample: on a document in which every section is present,
every field set and valid, the YAML round-trip does not reconstruct an equal
document - the serialized tags section is dropped by the decoder, so the
reconstructed `tags_` is unset where the original held a section. -/
theorem roundTrip_drops_tags :
    (roundTrip sampleSettings fullConfig).map (fun r => r.tags_)
      = Except.ok Option.none
    ∧ fullConfig.tags_ = Option.some { deployment := "shm" }
    ∧ roundTrip sampleSettings fullConfig ≠ Except.ok fullConfig := by
  refine ⟨by decide, rfl, by decide⟩

end DataSafeHaven

namespace DataSafeHaven

/-- Claim C7 counterexample: the all-unset Backend section - every field
unset without a default - passes validation, because `if not self.field`
reads the unset field as the truthy descriptor object, and `to_dict`
returns a mapping (containing the unset sentinels) instead of raising. -/
theorem backend_unset_to_dict_succeeds :
    ({} : ConfigSectionBackend).to_dict = Except.ok ({} : ConfigSectionBackend)
    ∧ ({} : ConfigSectionBackend).key_vault_name = Option.none :=
  ⟨rfl, rfl⟩

/-- Claim C7 (amended): every section `to_dict` runs its validation first and
returns the encoded mapping exactly when validation passes; validation
raises a `ValueError` naming the offending field and its rendered value for
malformed or unset-without-default fields in the Azure, Pulumi, SHM, SRE and
remote-desktop sections (instances below: the unset `admin_group_id`,
`encryption_key_id` and `aad_tenant_id`, the unset remote-desktop booleans
reached both directly and through the SRE section, and a malformed SRE
workspace SKU) and for empty-string (falsy) values in the Backend and Tags
sections; but an unset Backend field reads as the truthy descriptor sentinel
and passes the non-emptiness check, so the all-unset Backend section
serializes without raising. -/
theorem to_dict_validation_gate (az : ConfigSectionAzure) (b : ConfigSectionBackend)
    (p : ConfigSectionPulumi) (sh : ConfigSectionSHM) (sre : ConfigSectionSRE)
    (r : ConfigSubsectionRemoteDesktopOpts) (t : ConfigSectionTags) :
    (az.to_dict = Except.ok az ↔ az.validate = Except.ok ())
    ∧ (b.to_dict = Except.ok b ↔ b.validate = Except.ok ())
    ∧ (p.to_dict = Except.ok p ↔ p.validate = Except.ok ())
    ∧ (sh.to_dict = Except.ok sh ↔ sh.validate = Except.ok ())
    ∧ (sre.to_dict = Except.ok sre ↔ sre.validate = Except.ok ())
    ∧ (t.to_dict = Except.ok t ↔ t.validate = Except.ok ())
    ∧ ({ az with admin_group_id := Option.none } : ConfigSectionAzure).to_dict
        = Except.error ⟨"admin_group_id", strOfField "admin_group_id" Option.none⟩
    ∧ ({ p with encryption_key_id := Option.none } : ConfigSectionPulumi).to_dict
        = Except.error ⟨"encryption_key_id", strOfField "encryption_key_id" Option.none⟩
    ∧ ({ sh with aad_tenant_id := Option.none } : ConfigSectionSHM).to_dict
        = Except.error ⟨"aad_tenant_id", strOfField "aad_tenant_id" Option.none⟩
    ∧ ({ r with allow_copy := Option.none } :
          ConfigSubsectionRemoteDesktopOpts).validate
        = Except.error ⟨"allow_copy", "<TypeChecked object allow_copy>"⟩
    ∧ ({ allow_copy := Option.some true, allow_paste := Option.none } :
          ConfigSubsectionRemoteDesktopOpts).validate
        = Except.error ⟨"allow_paste", "<TypeChecked object allow_paste>"⟩
    ∧ ({ sre with
          data_provider_ip_addresses := [],
          remote_desktop :=
            { allow_copy := Option.none, allow_paste := Option.none } } :
          ConfigSectionSRE).to_dict
        = Except.error ⟨"allow_copy", "<TypeChecked object allow_copy>"⟩
    ∧ ({ sre with
          data_provider_ip_addresses := [],
          remote_desktop :=
            { allow_copy := Option.some false, allow_paste := Option.some false },
          research_desktops := [("workspace-00", { sku := "bad" })] } :
          ConfigSectionSRE).to_dict
        = Except.error ⟨"sku", "bad"⟩
    ∧ ({ b with key_vault_name := Option.some "" } : ConfigSectionBackend).to_dict
        = Except.error ⟨"key_vault_name", ""⟩
    ∧ ({ t with deployment := "" } : ConfigSectionTags).to_dict
        = Except.error ⟨"deployment", ""⟩
    ∧ ({} : ConfigSectionBackend).to_dict = Except.ok ({} : ConfigSectionBackend) :=
  ⟨validatedDict_ok_iff ConfigSectionAzure.validate az,
   validatedDict_ok_iff ConfigSectionBackend.validate b,
   validatedDict_ok_iff ConfigSectionPulumi.validate p,
   validatedDict_ok_iff ConfigSectionSHM.validate sh,
   validatedDict_ok_iff ConfigSectionSRE.validate sre,
   validatedDict_ok_iff ConfigSectionTags.validate t,
   rfl, rfl, rfl, rfl, rfl, rfl, rfl, rfl, rfl, rfl⟩

end DataSafeHaven
